import Mathlib

/-!
Verification of the stimulus-generation engine of the HiddenStateExp repository
(`stimulus-generator.js`).

The JavaScript source is shallowly embedded: the mutable `SeededRandom` stream
becomes explicit state passing of the natural-number LCG state, JavaScript
double arithmetic is idealised as real arithmetic (every operation performed by
the generator on its rational LCG outputs is exact in double precision for the
constants involved), and the trial loop of `generateSequence` becomes a
structurally recursive function threading `(t, currentState, tau, rngState)`.
IEEE special values, which appear only in the coverage analyzer when fed an
empty main sequence, are modelled by `EReal` (`⊤` for `Infinity`, `⊥` for
`-Infinity`) with `NaN` modelled as `none : Option EReal`.
-/

/-- LCG recurrence of `SeededRandom.random()`:
`current = (current * 1664525 + 1013904223) % 2^32`. -/
def lcgNext (s : ℕ) : ℕ := (s * 1664525 + 1013904223) % 2 ^ 32

/-- Model of the `SeededRandom` class: the stored `seed` and the mutable
`current` state. -/
structure SeededRandom where
  seed : ℕ
  current : ℕ

/-- `SeededRandom.random()`: advances `current` by the LCG recurrence and
returns `current / 2^32` together with the updated generator. -/
noncomputable def SeededRandom.random (r : SeededRandom) : ℝ × SeededRandom :=
  ((lcgNext r.current : ℝ) / 2 ^ 32, { r with current := lcgNext r.current })

/-- `SeededRandom.setSeed(seed)`: resets both fields. -/
def SeededRandom.setSeed (_ : SeededRandom) (s : ℕ) : SeededRandom :=
  { seed := s, current := s }

/-- Generator state after `n` calls to `random()`. -/
def SeededRandom.advance (r : SeededRandom) : ℕ → SeededRandom
  | 0 => r
  | n + 1 => { r with current := lcgNext ((r.advance n).current) }

/-- The `n`-th value of the random stream as a function of the seed and the
call count alone. -/
noncomputable def randomStream (seed : ℕ) (n : ℕ) : ℝ :=
  ((lcgNext^[n + 1] seed : ℕ) : ℝ) / 2 ^ 32

/-- `this.STATE_RANGE = 300`. -/
def STATE_RANGE : ℝ := 300

/-- `this.LIKELIHOOD_HALF_WIDTH = 20`. -/
def LIKELIHOOD_HALF_WIDTH : ℝ := 20

/-- `this.CHANGE_SIZE_HALF_WIDTH = 40`. -/
def CHANGE_SIZE_HALF_WIDTH : ℝ := 40

/-- `this.CHANGE_SEPARATION = 15`. -/
def CHANGE_SEPARATION : ℝ := 15

/-- `this.TUTORIAL_TRIALS = [10, 10, 15, 15, 20]`. -/
def TUTORIAL_TRIALS : List ℤ := [10, 10, 15, 15, 20]

/-- `this.rngSeed = 12345`. -/
def rngSeed : ℕ := 12345

/-- The uniform value produced by one `rng.random()` call from LCG state `s`. -/
noncomputable def lcgOut (s : ℕ) : ℝ := (lcgNext s : ℝ) / 2 ^ 32

/-- Body of `sampleTriangular` as a function of the uniform draw `u`:
inverse-CDF sampling of a symmetric triangular distribution, clamped by
`Math.max(0, Math.min(STATE_RANGE, sample))`. -/
noncomputable def sampleTriangularU (center halfWidth u : ℝ) : ℝ :=
  max 0 (min STATE_RANGE
    (if u < 0.5 then center - halfWidth + halfWidth * Real.sqrt (2 * u)
     else center + halfWidth - halfWidth * Real.sqrt (2 * (1 - u))))

/-- `sampleTriangular(center, halfWidth, rng)`: draws one uniform value from
the stream and applies the triangular inverse CDF with clamping; returns the
sample together with the advanced LCG state. -/
noncomputable def sampleTriangular (center halfWidth : ℝ) (s : ℕ) : ℝ × ℕ :=
  (sampleTriangularU center halfWidth (lcgOut s), lcgNext s)

/-- `sampleBimodalTransition(currentState, rng)`: with probability 0.2 a large
jump (triangular around `STATE_RANGE/2` with half-width `STATE_RANGE/3`),
otherwise a triangular sample around one of the two lobes
`currentState ∓ CHANGE_SEPARATION` chosen with probability 1/2 each. -/
noncomputable def sampleBimodalTransition (currentState : ℝ) (s : ℕ) : ℝ × ℕ :=
  if lcgOut s < 0.2 then
    sampleTriangular (STATE_RANGE / 2) (STATE_RANGE / 3) (lcgNext s)
  else
    sampleTriangular
      (if lcgOut (lcgNext s) < 0.5 then currentState - CHANGE_SEPARATION
       else currentState + CHANGE_SEPARATION)
      CHANGE_SIZE_HALF_WIDTH (lcgNext (lcgNext s))

/-- `calculateHDHazard(tau)`: the logistic hazard `1 / (1 + e^{-(τ-10)})`. -/
noncomputable def calculateHDHazard (tau : ℝ) : ℝ :=
  1 / (1 + Real.exp (-(tau - 10)))

/-- Hazard selection of `generateSequence` (lines 106–110): constant `0.1` for
`'HI'`, the logistic hazard of the current `tau` otherwise. -/
noncomputable def hazardOf (condition : String) (tau : ℕ) : ℝ :=
  if condition = "HI" then 0.1 else calculateHDHazard tau

/-- Likelihood half-width used for the observation draw: the base constant,
halved for tutorial phases 3 and 4 (lines 147–152). -/
noncomputable def likelihoodWidthOf (isTutorial : Bool) (tutorialPhase : Option ℕ) : ℝ :=
  if isTutorial = true ∧ (tutorialPhase = some 3 ∨ tutorialPhase = some 4) then
    LIKELIHOOD_HALF_WIDTH * 0.5
  else LIKELIHOOD_HALF_WIDTH

/-- State transition applied on a change trial (lines 116–139): when
`isTutorial || (t > 0 && t % 50 === 0)`, an extra uniform draw below the
exploration probability 0.3 triggers the targeted exploration move (which
depends on the region of `currentState`); otherwise, and on all other change
trials, the bimodal transition is applied. -/
noncomputable def transitionOnChange (isTutorial : Bool) (t : ℕ) (currentState : ℝ)
    (s : ℕ) : ℝ × ℕ :=
  if isTutorial = true ∨ (0 < t ∧ t % 50 = 0) then
    if lcgOut s < 0.3 then
      if currentState < STATE_RANGE * 0.3 then
        sampleTriangular (STATE_RANGE * 0.7) (STATE_RANGE * 0.2) (lcgNext s)
      else if currentState > STATE_RANGE * 0.7 then
        sampleTriangular (STATE_RANGE * 0.3) (STATE_RANGE * 0.2) (lcgNext s)
      else
        if lcgOut (lcgNext s) < 0.5 then
          sampleTriangular (STATE_RANGE * 0.15) (STATE_RANGE * 0.1) (lcgNext (lcgNext s))
        else
          sampleTriangular (STATE_RANGE * 0.85) (STATE_RANGE * 0.1) (lcgNext (lcgNext s))
    else sampleBimodalTransition currentState (lcgNext s)
  else sampleBimodalTransition currentState s

/-- Trial record pushed by `generateSequence` (lines 157–168). -/
structure Trial where
  trial_idx : ℕ
  condition : String
  tau_true : ℕ
  change_flag : Bool
  s_t : ℝ
  x_t : ℝ
  hazard_rate : ℝ
  tutorial_phase : Option ℕ
  is_tutorial : Bool
  likelihood_width : ℝ

/-- One iteration of the trial loop of `generateSequence`: returns the emitted
trial record together with the updated `(currentState, tau, rngState)`. The
hazard draw advances the stream once; on a change trial `transitionOnChange`
consumes further draws; the observation draw advances it once more. -/
noncomputable def genStep (condition : String) (isTutorial : Bool)
    (tutorialPhase : Option ℕ) (t : ℕ) (currentState : ℝ) (tau : ℕ) (s : ℕ) :
    Trial × ℝ × ℕ × ℕ :=
  if lcgOut s < hazardOf condition tau then
    (⟨t, condition, 0, true,
        (transitionOnChange isTutorial t currentState (lcgNext s)).1,
        (sampleTriangular (transitionOnChange isTutorial t currentState (lcgNext s)).1
          (likelihoodWidthOf isTutorial tutorialPhase)
          (transitionOnChange isTutorial t currentState (lcgNext s)).2).1,
        hazardOf condition tau, tutorialPhase, isTutorial,
        likelihoodWidthOf isTutorial tutorialPhase⟩,
      (transitionOnChange isTutorial t currentState (lcgNext s)).1, 0,
      (sampleTriangular (transitionOnChange isTutorial t currentState (lcgNext s)).1
        (likelihoodWidthOf isTutorial tutorialPhase)
        (transitionOnChange isTutorial t currentState (lcgNext s)).2).2)
  else
    (⟨t, condition, tau + 1, false, currentState,
        (sampleTriangular currentState (likelihoodWidthOf isTutorial tutorialPhase)
          (lcgNext s)).1,
        hazardOf condition tau, tutorialPhase, isTutorial,
        likelihoodWidthOf isTutorial tutorialPhase⟩,
      currentState, tau + 1,
      (sampleTriangular currentState (likelihoodWidthOf isTutorial tutorialPhase)
        (lcgNext s)).2)

/-- The trial loop of `generateSequence` (lines 101–169), recursing on the
number of remaining trials. -/
noncomputable def genLoop (condition : String) (isTutorial : Bool)
    (tutorialPhase : Option ℕ) : ℕ → ℕ → ℝ → ℕ → ℕ → List Trial × ℕ
  | 0, _, _, _, s => ([], s)
  | r + 1, t, currentState, tau, s =>
    ((genStep condition isTutorial tutorialPhase t currentState tau s).1 ::
        (genLoop condition isTutorial tutorialPhase r (t + 1)
          (genStep condition isTutorial tutorialPhase t currentState tau s).2.1
          (genStep condition isTutorial tutorialPhase t currentState tau s).2.2.1
          (genStep condition isTutorial tutorialPhase t currentState tau s).2.2.2).1,
      (genLoop condition isTutorial tutorialPhase r (t + 1)
        (genStep condition isTutorial tutorialPhase t currentState tau s).2.1
        (genStep condition isTutorial tutorialPhase t currentState tau s).2.2.1
        (genStep condition isTutorial tutorialPhase t currentState tau s).2.2.2).2)

/-- `generateSequence(condition, nTrials, isTutorial, tutorialPhase)`: draws
the initial state uniformly over `[0, STATE_RANGE)` and runs the trial loop.
`nTrials` is an integer; the JavaScript `for` loop executes
`max(nTrials, 0)` iterations, hence `Int.toNat`. -/
noncomputable def generateSequence (condition : String) (nTrials : ℤ)
    (isTutorial : Bool) (tutorialPhase : Option ℕ) (s : ℕ) : List Trial × ℕ :=
  genLoop condition isTutorial tutorialPhase nTrials.toNat 0
    (lcgOut s * STATE_RANGE) 0 (lcgNext s)

/-- `generateTutorialSequences(condition)`: five tutorial sequences, phases 1–5
with trial counts `TUTORIAL_TRIALS`, threading the shared stream. -/
noncomputable def generateTutorialSequences (condition : String) (s : ℕ) :
    List (List Trial) × ℕ :=
  (List.range 5).foldl
    (fun acc i =>
      let r := generateSequence condition (TUTORIAL_TRIALS.getD i 0) true
        (some (i + 1)) acc.2
      (acc.1 ++ [r.1], r.2))
    ([], s)

/-- `generateMainSequence(condition)`: one main sequence of the configured
trial count, not a tutorial, phase `none`. -/
noncomputable def generateMainSequence (condition : String) (mainTrialCount : ℤ)
    (s : ℕ) : List Trial × ℕ :=
  generateSequence condition mainTrialCount false none s

/-- Per-condition slot of the `sequences` object. -/
structure ConditionSequences where
  tutorials : List (List Trial)
  main : List Trial

/-- The full `sequences` object returned by `generateAllSequences`. -/
structure SessionSequences where
  HI : ConditionSequences
  HD : ConditionSequences

/-- `generateAllSequences()`: HI tutorials, HI main, HD tutorials, HD main, in
the evaluation order of the object literal, all on the single shared stream. -/
noncomputable def generateAllSequences (seed : ℕ) (mainTrialCount : ℤ) :
    SessionSequences × ℕ :=
  let hiTut := generateTutorialSequences "HI" seed
  let hiMain := generateMainSequence "HI" mainTrialCount hiTut.2
  let hdTut := generateTutorialSequences "HD" hiMain.2
  let hdMain := generateMainSequence "HD" mainTrialCount hdTut.2
  (⟨⟨hiTut.1, hiMain.1⟩, ⟨hdTut.1, hdMain.1⟩⟩, hdMain.2)

/-- Modelled from the spec (§4.5): the eight generation calls written out
explicitly in the order the spec prescribes — HI tutorials phases 1–5 with
trial counts 10, 10, 15, 15, 20 and `isTutorial = true`, then HI main
(`isTutorial = false`, phase none), then HD tutorials phases 1–5, then HD main
— threading one continuously-advancing stream. Used only to compare the
source's `generateAllSequences` against the spec's stated order. -/
noncomputable def generateAllSequencesSpecOrder (seed : ℕ) (mainTrialCount : ℤ) :
    SessionSequences × ℕ :=
  let a1 := generateSequence "HI" 10 true (some 1) seed
  let a2 := generateSequence "HI" 10 true (some 2) a1.2
  let a3 := generateSequence "HI" 15 true (some 3) a2.2
  let a4 := generateSequence "HI" 15 true (some 4) a3.2
  let a5 := generateSequence "HI" 20 true (some 5) a4.2
  let am := generateSequence "HI" mainTrialCount false none a5.2
  let b1 := generateSequence "HD" 10 true (some 1) am.2
  let b2 := generateSequence "HD" 10 true (some 2) b1.2
  let b3 := generateSequence "HD" 15 true (some 3) b2.2
  let b4 := generateSequence "HD" 15 true (some 4) b3.2
  let b5 := generateSequence "HD" 20 true (some 5) b4.2
  let bm := generateSequence "HD" mainTrialCount false none b5.2
  (⟨⟨[a1.1, a2.1, a3.1, a4.1, a5.1], am.1⟩,
    ⟨[b1.1, b2.1, b3.1, b4.1, b5.1], bm.1⟩⟩, bm.2)

/-- Result of `Math.min(...xs)` on a list of finite doubles: the fold of `min`
with identity `Infinity` (modelled by `⊤ : EReal`); `Math.min()` of an empty
argument list is `Infinity`. -/
noncomputable def jsMin (l : List ℝ) : EReal :=
  l.foldl (fun m x => min m (x : EReal)) ⊤

/-- Result of `Math.max(...xs)` on a list of finite doubles: the fold of `max`
with identity `-Infinity` (modelled by `⊥ : EReal`). -/
noncomputable def jsMax (l : List ℝ) : EReal :=
  l.foldl (fun m x => max m (x : EReal)) ⊥

/-- IEEE-754 division of two finite doubles, with `NaN` modelled as `none`:
`0 / 0` is `NaN`, `x / 0` for `x ≠ 0` is a signed infinity, and every other
quotient is finite. -/
noncomputable def jsDiv (a b : ℝ) : Option EReal :=
  if b = 0 then
    if a = 0 then none else if 0 < a then some ⊤ else some ⊥
  else some ((a / b : ℝ) : EReal)

/-- `xs.reduce((a, b) => a + b, 0)`. -/
noncomputable def jsSum (l : List ℝ) : ℝ := l.foldl (fun a b => a + b) 0

/-- The `stateRange` / `observationRange` sub-objects of the coverage
analysis: min, max, mean (`sum / length`) and the coverage ratio
`(max - min) / STATE_RANGE`. -/
structure RangeStats where
  min : EReal
  max : EReal
  mean : Option EReal
  coverage : EReal

/-- Builds a `RangeStats` from a list of values exactly as
`analyzeStateCoverage` does (lines 252–263). -/
noncomputable def rangeStatsOf (l : List ℝ) : RangeStats :=
  { min := jsMin l
    max := jsMax l
    mean := jsDiv (jsSum l) l.length
    coverage := (jsMax l - jsMin l) / (STATE_RANGE : EReal) }

/-- Quartile occupancy of `calculateQuartileDistribution`: counts of states in
each quarter of `[0, STATE_RANGE]` and the numeric part of the percentages
(`count / total * 100`, before the `toFixed(1)` string formatting, which is
presentation and not modelled). -/
structure QuartileDistribution where
  q1 : ℕ
  q2 : ℕ
  q3 : ℕ
  q4 : ℕ
  p1 : Option EReal
  p2 : Option EReal
  p3 : Option EReal
  p4 : Option EReal

/-- `calculateQuartileDistribution(states)` (lines 277–299). -/
noncomputable def calculateQuartileDistribution (states : List ℝ) :
    QuartileDistribution :=
  let q1 := STATE_RANGE * 0.25
  let q2 := STATE_RANGE * 0.5
  let q3 := STATE_RANGE * 0.75
  let c1 := (states.filter (fun s => s < q1)).length
  let c2 := (states.filter (fun s => q1 ≤ s ∧ s < q2)).length
  let c3 := (states.filter (fun s => q2 ≤ s ∧ s < q3)).length
  let c4 := (states.filter (fun s => q3 ≤ s)).length
  { q1 := c1, q2 := c2, q3 := c3, q4 := c4
    p1 := (jsDiv c1 states.length).map (fun x => x * (100 : EReal))
    p2 := (jsDiv c2 states.length).map (fun x => x * (100 : EReal))
    p3 := (jsDiv c3 states.length).map (fun x => x * (100 : EReal))
    p4 := (jsDiv c4 states.length).map (fun x => x * (100 : EReal)) }

/-- Per-condition entry of the coverage analysis. -/
structure CoverageReport where
  stateRange : RangeStats
  observationRange : RangeStats
  quartiles : QuartileDistribution

/-- The body of the per-condition loop of `analyzeStateCoverage`. -/
noncomputable def conditionCoverage (mainTrials : List Trial) : CoverageReport :=
  { stateRange := rangeStatsOf (mainTrials.map Trial.s_t)
    observationRange := rangeStatsOf (mainTrials.map Trial.x_t)
    quartiles := calculateQuartileDistribution (mainTrials.map Trial.s_t) }

/-- `analyzeStateCoverage(sequences)`: the coverage reports for the HI and HD
main sequences. -/
noncomputable def analyzeStateCoverage (sequences : SessionSequences) :
    CoverageReport × CoverageReport :=
  (conditionCoverage sequences.HI.main, conditionCoverage sequences.HD.main)

/-- `StimulusHelpers.calculateDistance(point1, point2)`. -/
noncomputable def calculateDistance (point1 point2 : ℝ) : ℝ := |point1 - point2|

/-- `StimulusHelpers.calculatePoints(clickX, trueState, baseRadius)`: tiered
scoring — 1 within `baseRadius`, 0.25 within `2 * baseRadius`, else 0. -/
noncomputable def calculatePoints (clickX trueState baseRadius : ℝ) : ℝ :=
  if calculateDistance clickX trueState ≤ baseRadius then 1
  else if calculateDistance clickX trueState ≤ baseRadius * 2 then 0.25
  else 0

theorem lcgNext_lt (s : ℕ) : lcgNext s < 2 ^ 32 :=
  Nat.mod_lt _ (by norm_num)

theorem lcgOut_nonneg (s : ℕ) : 0 ≤ lcgOut s := by
  unfold lcgOut; positivity

theorem lcgOut_lt_one (s : ℕ) : lcgOut s < 1 := by
  unfold lcgOut
  rw [div_lt_one (by positivity)]
  exact_mod_cast lcgNext_lt s

theorem sampleTriangularU_nonneg (center halfWidth u : ℝ) :
    0 ≤ sampleTriangularU center halfWidth u :=
  le_max_left 0 _

theorem sampleTriangularU_le (center halfWidth u : ℝ) :
    sampleTriangularU center halfWidth u ≤ 300 :=
  max_le (by norm_num) ((min_le_left _ _).trans (by norm_num [STATE_RANGE]))

theorem sampleTriangular_fst_nonneg (center halfWidth : ℝ) (s : ℕ) :
    0 ≤ (sampleTriangular center halfWidth s).1 :=
  sampleTriangularU_nonneg center halfWidth (lcgOut s)

theorem sampleTriangular_fst_le (center halfWidth : ℝ) (s : ℕ) :
    (sampleTriangular center halfWidth s).1 ≤ 300 :=
  sampleTriangularU_le center halfWidth (lcgOut s)

theorem sampleBimodalTransition_fst_nonneg (currentState : ℝ) (s : ℕ) :
    0 ≤ (sampleBimodalTransition currentState s).1 := by
  unfold sampleBimodalTransition
  split <;> exact sampleTriangular_fst_nonneg _ _ _

theorem sampleBimodalTransition_fst_le (currentState : ℝ) (s : ℕ) :
    (sampleBimodalTransition currentState s).1 ≤ 300 := by
  unfold sampleBimodalTransition
  split <;> exact sampleTriangular_fst_le _ _ _

theorem transitionOnChange_fst_nonneg (isTutorial : Bool) (t : ℕ)
    (currentState : ℝ) (s : ℕ) :
    0 ≤ (transitionOnChange isTutorial t currentState s).1 := by
  unfold transitionOnChange
  split
  · split
    · split
      · exact sampleTriangular_fst_nonneg _ _ _
      · split
        · exact sampleTriangular_fst_nonneg _ _ _
        · split <;> exact sampleTriangular_fst_nonneg _ _ _
    · exact sampleBimodalTransition_fst_nonneg _ _
  · exact sampleBimodalTransition_fst_nonneg _ _

theorem transitionOnChange_fst_le (isTutorial : Bool) (t : ℕ)
    (currentState : ℝ) (s : ℕ) :
    (transitionOnChange isTutorial t currentState s).1 ≤ 300 := by
  unfold transitionOnChange
  split
  · split
    · split
      · exact sampleTriangular_fst_le _ _ _
      · split
        · exact sampleTriangular_fst_le _ _ _
        · split <;> exact sampleTriangular_fst_le _ _ _
    · exact sampleBimodalTransition_fst_le _ _
  · exact sampleBimodalTransition_fst_le _ _

theorem genLoop_zero (c : String) (it : Bool) (ph : Option ℕ) (t : ℕ) (st : ℝ)
    (tau s : ℕ) : genLoop c it ph 0 t st tau s = ([], s) := rfl

theorem genLoop_succ (c : String) (it : Bool) (ph : Option ℕ) (r t : ℕ)
    (st : ℝ) (tau s : ℕ) :
    genLoop c it ph (r + 1) t st tau s =
      ((genStep c it ph t st tau s).1 ::
          (genLoop c it ph r (t + 1) (genStep c it ph t st tau s).2.1
            (genStep c it ph t st tau s).2.2.1
            (genStep c it ph t st tau s).2.2.2).1,
        (genLoop c it ph r (t + 1) (genStep c it ph t st tau s).2.1
          (genStep c it ph t st tau s).2.2.1
          (genStep c it ph t st tau s).2.2.2).2) := rfl

theorem genLoop_length (c : String) (it : Bool) (ph : Option ℕ) :
    ∀ (r t : ℕ) (st : ℝ) (tau s : ℕ), (genLoop c it ph r t st tau s).1.length = r
  | 0, _, _, _, _ => rfl
  | r + 1, t, st, tau, s => by
    rw [genLoop_succ]
    simpa using genLoop_length c it ph r (t + 1) _ _ _

/-- Trial-wise statement of the spec's range invariant. -/
def trialInRange (tr : Trial) : Prop :=
  0 ≤ tr.s_t ∧ tr.s_t ≤ 300 ∧ 0 ≤ tr.x_t ∧ tr.x_t ≤ 300

theorem genStep_range (c : String) (it : Bool) (ph : Option ℕ) (t : ℕ)
    (st : ℝ) (tau s : ℕ) (h0 : 0 ≤ st) (h1 : st ≤ 300) :
    trialInRange (genStep c it ph t st tau s).1 ∧
      0 ≤ (genStep c it ph t st tau s).2.1 ∧
      (genStep c it ph t st tau s).2.1 ≤ 300 := by
  unfold genStep
  split
  · exact ⟨⟨transitionOnChange_fst_nonneg _ _ _ _,
      transitionOnChange_fst_le _ _ _ _,
      sampleTriangular_fst_nonneg _ _ _, sampleTriangular_fst_le _ _ _⟩,
      transitionOnChange_fst_nonneg _ _ _ _, transitionOnChange_fst_le _ _ _ _⟩
  · exact ⟨⟨h0, h1, sampleTriangular_fst_nonneg _ _ _,
      sampleTriangular_fst_le _ _ _⟩, h0, h1⟩

theorem genLoop_range (c : String) (it : Bool) (ph : Option ℕ) :
    ∀ (r t : ℕ) (st : ℝ) (tau s : ℕ), 0 ≤ st → st ≤ 300 →
      List.Forall trialInRange (genLoop c it ph r t st tau s).1
  | 0, _, _, _, _, _, _ => trivial
  | r + 1, t, st, tau, s, h0, h1 => by
    rw [genLoop_succ, List.forall_cons]
    obtain ⟨htr, hs0, hs1⟩ := genStep_range c it ph t st tau s h0 h1
    exact ⟨htr, genLoop_range c it ph r (t + 1) _ _ _ hs0 hs1⟩

/-- Per-trial tau evolution relative to the previous trial's emitted tau. -/
def tauOk : ℕ → List Trial → Prop
  | _, [] => True
  | prev, tr :: rest =>
    (tr.tau_true = if tr.change_flag then 0 else prev + 1) ∧ tauOk tr.tau_true rest

theorem genStep_tau (c : String) (it : Bool) (ph : Option ℕ) (t : ℕ)
    (st : ℝ) (tau s : ℕ) :
    ((genStep c it ph t st tau s).1.tau_true =
        if (genStep c it ph t st tau s).1.change_flag then 0 else tau + 1) ∧
      (genStep c it ph t st tau s).2.2.1 = (genStep c it ph t st tau s).1.tau_true := by
  unfold genStep
  split <;> simp

theorem genLoop_tauOk (c : String) (it : Bool) (ph : Option ℕ) :
    ∀ (r t : ℕ) (st : ℝ) (tau s : ℕ), tauOk tau (genLoop c it ph r t st tau s).1
  | 0, _, _, _, _ => trivial
  | r + 1, t, st, tau, s => by
    rw [genLoop_succ]
    obtain ⟨h1, h2⟩ := genStep_tau c it ph t st tau s
    refine ⟨h1, ?_⟩
    rw [← h2]
    exact genLoop_tauOk c it ph r (t + 1) (genStep c it ph t st tau s).2.1
      (genStep c it ph t st tau s).2.2.1 (genStep c it ph t st tau s).2.2.2

theorem tauOk_zero_iff_change (p : Trial → Prop)
    (hp : ∀ tr : Trial, (tr.tau_true = 0 ↔ tr.change_flag = true) → p tr) :
    ∀ (prev : ℕ) (l : List Trial), tauOk prev l → List.Forall p l
  | _, [], _ => trivial
  | prev, tr :: rest, h => by
    rw [List.forall_cons]
    refine ⟨hp tr ?_, tauOk_zero_iff_change p hp tr.tau_true rest h.2⟩
    rcases h with ⟨h1, _⟩
    by_cases hc : tr.change_flag = true <;> simp [hc] at h1 <;> simp [hc, h1]

theorem advance_current (seed : ℕ) :
    ∀ n : ℕ, ((SeededRandom.mk seed seed).advance n).current = lcgNext^[n] seed
  | 0 => rfl
  | n + 1 => by
    show lcgNext ((SeededRandom.mk seed seed).advance n).current = _
    rw [advance_current seed n, Function.iterate_succ_apply']

/-- C4: `SeededRandom.random()` updates the state by exactly
`state = (state * 1664525 + 1013904223) mod 2^32`, returns `state / 2^32`,
every returned value lies in `[0, 1)`, and the output after `n` prior calls is
a function of the seed and the call count alone. -/
theorem seededRandom_lcg_stream :
    (∀ r : SeededRandom,
        r.random.2.current = (r.current * 1664525 + 1013904223) % 2 ^ 32 ∧
        r.random.1 = ((r.random.2.current : ℕ) : ℝ) / 2 ^ 32 ∧
        0 ≤ r.random.1 ∧ r.random.1 < 1) ∧
      ∀ seed n : ℕ, ((SeededRandom.mk seed seed).advance n).random.1 =
        randomStream seed n := by
  constructor
  · intro r
    exact ⟨rfl, rfl, lcgOut_nonneg r.current, lcgOut_lt_one r.current⟩
  · intro seed n
    show lcgOut ((SeededRandom.mk seed seed).advance n).current = randomStream seed n
    rw [advance_current seed n]
    unfold lcgOut randomStream
    rw [Function.iterate_succ_apply']

theorem genLoop_hazard_HI (it : Bool) (ph : Option ℕ) :
    ∀ (r t : ℕ) (st : ℝ) (tau s : ℕ),
      List.Forall (fun tr => tr.hazard_rate = 0.1) (genLoop "HI" it ph r t st tau s).1
  | 0, _, _, _, _ => trivial
  | r + 1, t, st, tau, s => by
    rw [genLoop_succ, List.forall_cons]
    refine ⟨?_, genLoop_hazard_HI it ph r (t + 1) _ _ _⟩
    unfold genStep
    split <;> simp [hazardOf]

/-- C5: every trial of an HI-condition sequence records `hazardRate = 0.1`
regardless of tau; the HD hazard `1/(1+exp(-(τ-10)))` is strictly increasing
over the integers, lies in `[0, 1]` for every integer tau, and equals exactly
`0.5` at `τ = 10`. -/
theorem hazard_model_correct :
    (∀ (nTrials : ℤ) (isTutorial : Bool) (tutorialPhase : Option ℕ) (seed : ℕ),
        List.Forall (fun tr => tr.hazard_rate = 0.1)
          (generateSequence "HI" nTrials isTutorial tutorialPhase seed).1) ∧
      (∀ a b : ℤ, a < b →
        calculateHDHazard ((a : ℤ) : ℝ) < calculateHDHazard ((b : ℤ) : ℝ)) ∧
      (∀ a : ℤ, 0 ≤ calculateHDHazard ((a : ℤ) : ℝ) ∧
        calculateHDHazard ((a : ℤ) : ℝ) ≤ 1) ∧
      calculateHDHazard 10 = 0.5 := by
  refine ⟨?_, ?_, ?_, ?_⟩
  · intro n it ph seed
    exact genLoop_hazard_HI it ph n.toNat 0 _ 0 _
  · intro a b hab
    unfold calculateHDHazard
    have hx : (0 : ℝ) < 1 + Real.exp (-(((a : ℤ) : ℝ) - 10)) := by positivity
    have hy : (0 : ℝ) < 1 + Real.exp (-(((b : ℤ) : ℝ) - 10)) := by positivity
    rw [one_div_lt_one_div hx hy]
    have : ((a : ℤ) : ℝ) < ((b : ℤ) : ℝ) := by exact_mod_cast hab
    have := Real.exp_lt_exp.mpr (by linarith :
      -(((b : ℤ) : ℝ) - 10) < -(((a : ℤ) : ℝ) - 10))
    linarith
  · intro a
    unfold calculateHDHazard
    have hx : (0 : ℝ) < 1 + Real.exp (-(((a : ℤ) : ℝ) - 10)) := by positivity
    constructor
    · positivity
    · rw [div_le_one hx]
      have := Real.exp_pos (-(((a : ℤ) : ℝ) - 10))
      linarith
  · unfold calculateHDHazard
    norm_num

theorem hazard_model_correct_witness :
    calculateHDHazard ((0 : ℤ) : ℝ) < calculateHDHazard ((1 : ℤ) : ℝ) :=
  hazard_model_correct.2.1 0 1 (by norm_num)

/-- C6: the tiered scoring function returns 1 whenever the distance is at most
the radius (in particular at distance 0 and at distance exactly the radius),
0.25 whenever the distance is in `(radius, 2*radius]`, and 0 beyond
`2*radius`; with radius 10, `score(105,100) = 1`, `score(115,100) = 0.25`,
`score(130,100) = 0`. -/
theorem scoring_tiers_correct :
    (∀ clickX trueState baseRadius : ℝ, 0 < baseRadius →
        (calculateDistance clickX trueState ≤ baseRadius →
          calculatePoints clickX trueState baseRadius = 1) ∧
        (baseRadius < calculateDistance clickX trueState ∧
            calculateDistance clickX trueState ≤ 2 * baseRadius →
          calculatePoints clickX trueState baseRadius = 0.25) ∧
        (2 * baseRadius < calculateDistance clickX trueState →
          calculatePoints clickX trueState baseRadius = 0) ∧
        calculatePoints clickX clickX baseRadius = 1) ∧
      calculatePoints 105 100 10 = 1 ∧
      calculatePoints 115 100 10 = 0.25 ∧
      calculatePoints 130 100 10 = 0 := by
  have key : ∀ clickX trueState baseRadius : ℝ, 0 < baseRadius →
      (calculateDistance clickX trueState ≤ baseRadius →
        calculatePoints clickX trueState baseRadius = 1) ∧
      (baseRadius < calculateDistance clickX trueState ∧
          calculateDistance clickX trueState ≤ 2 * baseRadius →
        calculatePoints clickX trueState baseRadius = 0.25) ∧
      (2 * baseRadius < calculateDistance clickX trueState →
        calculatePoints clickX trueState baseRadius = 0) := by
    intro x y r hr
    refine ⟨?_, ?_, ?_⟩
    · intro h
      unfold calculatePoints
      rw [if_pos h]
    · intro h
      unfold calculatePoints
      rw [if_neg (not_le.mpr h.1), if_pos (by linarith [h.2])]
    · intro h
      unfold calculatePoints
      rw [if_neg (by linarith), if_neg (by linarith)]
  have dist_eval : ∀ x y : ℝ, y ≤ x → calculateDistance x y = x - y := by
    intro x y h
    unfold calculateDistance
    rw [abs_of_nonneg (by linarith)]
  refine ⟨?_, ?_, ?_, ?_⟩
  · intro x y r hr
    refine ⟨(key x y r hr).1, (key x y r hr).2.1, (key x y r hr).2.2, ?_⟩
    refine (key x x r hr).1 ?_
    rw [dist_eval x x le_rfl]
    linarith
  · refine (key 105 100 10 (by norm_num)).1 ?_
    rw [dist_eval 105 100 (by norm_num)]
    norm_num
  · refine (key 115 100 10 (by norm_num)).2.1 ⟨?_, ?_⟩ <;>
      rw [dist_eval 115 100 (by norm_num)] <;> norm_num
  · refine (key 130 100 10 (by norm_num)).2.2 ?_
    rw [dist_eval 130 100 (by norm_num)]
    norm_num

theorem scoring_tiers_correct_witness :
    calculatePoints 103 100 10 = 1 :=
  (scoring_tiers_correct.1 103 100 10 (by norm_num)).1
    (by unfold calculateDistance
        rw [abs_of_nonneg (by norm_num : (0 : ℝ) ≤ 103 - 100)]
        norm_num)

/-- C1 (amended): within every generated sequence the emitted tau is 0 exactly
on `changed = true` trials and otherwise equals the previous trial's tau plus
one, where the virtual tau before the first trial is 0 — so an unchanged first
trial emits `tau = 1`, not 0. -/
theorem tau_evolution :
    ∀ (condition : String) (nTrials : ℤ) (isTutorial : Bool)
      (tutorialPhase : Option ℕ) (seed : ℕ),
      tauOk 0 (generateSequence condition nTrials isTutorial tutorialPhase seed).1 ∧
        List.Forall (fun tr => tr.tau_true = 0 ↔ tr.change_flag = true)
          (generateSequence condition nTrials isTutorial tutorialPhase seed).1 := by
  intro c n it ph seed
  have h := genLoop_tauOk c it ph n.toNat 0 (lcgOut seed * STATE_RANGE) 0 (lcgNext seed)
  exact ⟨h, tauOk_zero_iff_change _ (fun _ hh => hh) 0 _ h⟩

theorem generateSequence_one_nochange_tau (condition : String) (isTutorial : Bool)
    (tutorialPhase : Option ℕ) (seed : ℕ)
    (h : ¬ lcgOut (lcgNext seed) < hazardOf condition 0) :
    (generateSequence condition 1 isTutorial tutorialPhase seed).1.map
      Trial.tau_true = [1] := by
  have h1 : (1 : ℤ).toNat = 0 + 1 := rfl
  unfold generateSequence
  rw [h1, genLoop_succ, genLoop_zero]
  unfold genStep
  rw [if_neg h]
  simp

/-- C1 counterexample: with the concrete LCG state 0, the single trial of
`generateSequence('HI', 1, false, null)` has no change and its emitted tau is
1, so the first trial of a sequence does not always have `tau = 0`. -/
theorem tau_first_trial_counterexample :
    ¬ ((generateSequence "HI" 1 false none 0).1.map Trial.tau_true = [0]) ∧
      (generateSequence "HI" 1 false none 0).1.map Trial.tau_true = [1] := by
  have h : ¬ lcgOut (lcgNext 0) < hazardOf "HI" 0 := by
    norm_num [lcgOut, lcgNext, hazardOf]
  have he := generateSequence_one_nochange_tau "HI" false none 0 h
  refine ⟨?_, he⟩
  rw [he]
  simp

/-- C2: the clamp in `sampleTriangular` keeps every sample in `[0, 300]` for
every value of the uniform draw (including 0, values arbitrarily close to 1,
and even values outside `[0, 1]`), and consequently every emitted state and
observation of every generated sequence — any condition, tutorial flag, phase,
trial count and stream state — lies in `[0, STATE_RANGE] = [0, 300]`. -/
theorem range_invariant :
    (∀ center halfWidth u : ℝ,
        0 ≤ sampleTriangularU center halfWidth u ∧
          sampleTriangularU center halfWidth u ≤ 300) ∧
      ∀ (condition : String) (nTrials : ℤ) (isTutorial : Bool)
        (tutorialPhase : Option ℕ) (seed : ℕ),
        List.Forall trialInRange
          (generateSequence condition nTrials isTutorial tutorialPhase seed).1 := by
  constructor
  · intro c h u
    exact ⟨sampleTriangularU_nonneg c h u, sampleTriangularU_le c h u⟩
  · intro c n it ph seed
    unfold generateSequence
    refine genLoop_range c it ph n.toNat 0 _ 0 _ ?_ ?_
    · exact mul_nonneg (lcgOut_nonneg seed) (by norm_num [STATE_RANGE])
    · have h1 := lcgOut_lt_one seed
      have h0 := lcgOut_nonneg seed
      have : STATE_RANGE = 300 := rfl
      nlinarith

/-- C8 (amended): `generateSequence` performs no validation of the trial
count: `nTrials = 0` yields the empty sequence without error, and any
negative trial count is likewise silently accepted, the trial loop simply not
executing — no rejection occurs. -/
theorem nonpositive_trial_count_empty :
    ∀ (condition : String) (nTrials : ℤ) (isTutorial : Bool)
      (tutorialPhase : Option ℕ) (seed : ℕ), nTrials ≤ 0 →
      (generateSequence condition nTrials isTutorial tutorialPhase seed).1 = [] := by
  intro c n it ph seed hn
  unfold generateSequence
  rw [Int.toNat_of_nonpos hn, genLoop_zero]

theorem nonpositive_trial_count_empty_witness :
    (generateSequence "HI" (-1) false none 0).1 = [] :=
  nonpositive_trial_count_empty "HI" (-1) false none 0 (by norm_num)

/-- C8 counterexample: a negative trial count is not rejected — with
`nTrials = -1` the generator silently returns exactly the same result (empty
trial list, same advanced stream state) as with `nTrials = 0`, instead of
signalling a configuration error. -/
theorem negative_trial_count_not_rejected :
    generateSequence "HI" (-1) false none 0 = generateSequence "HI" 0 false none 0 ∧
      (generateSequence "HI" (-1) false none 0).1 = [] :=
  ⟨rfl, rfl⟩

/-- The `(state, observation, changed, tau)` tuple view of a sequence. -/
def tupleView (l : List Trial) : List (ℝ × ℝ × Bool × ℕ) :=
  l.map fun tr => (tr.s_t, tr.x_t, tr.change_flag, tr.tau_true)

/-- C3: generation is deterministic — two runs of `generateAllSequences` with
the same seed and the same trial count produce identical results, and in
particular equal `(state, observation, changed, tau)` tuples for the main
block and every tutorial phase of both conditions. -/
theorem generation_deterministic :
    ∀ (seed1 seed2 : ℕ) (count1 count2 : ℤ), seed1 = seed2 → count1 = count2 →
      generateAllSequences seed1 count1 = generateAllSequences seed2 count2 ∧
        tupleView (generateAllSequences seed1 count1).1.HI.main =
          tupleView (generateAllSequences seed2 count2).1.HI.main ∧
        (generateAllSequences seed1 count1).1.HI.tutorials.map tupleView =
          (generateAllSequences seed2 count2).1.HI.tutorials.map tupleView ∧
        tupleView (generateAllSequences seed1 count1).1.HD.main =
          tupleView (generateAllSequences seed2 count2).1.HD.main ∧
        (generateAllSequences seed1 count1).1.HD.tutorials.map tupleView =
          (generateAllSequences seed2 count2).1.HD.tutorials.map tupleView := by
  intro seed1 seed2 count1 count2 hs hc
  subst hs
  subst hc
  exact ⟨rfl, rfl, rfl, rfl, rfl⟩

theorem generation_deterministic_witness :
    generateAllSequences 12345 5 = generateAllSequences 12345 5 ∧
      tupleView (generateAllSequences 12345 5).1.HI.main =
        tupleView (generateAllSequences 12345 5).1.HI.main ∧
      (generateAllSequences 12345 5).1.HI.tutorials.map tupleView =
        (generateAllSequences 12345 5).1.HI.tutorials.map tupleView ∧
      tupleView (generateAllSequences 12345 5).1.HD.main =
        tupleView (generateAllSequences 12345 5).1.HD.main ∧
      (generateAllSequences 12345 5).1.HD.tutorials.map tupleView =
        (generateAllSequences 12345 5).1.HD.tutorials.map tupleView :=
  generation_deterministic 12345 12345 5 5 rfl rfl

theorem generateSequence_length (c : String) (n : ℤ) (it : Bool)
    (ph : Option ℕ) (s : ℕ) :
    (generateSequence c n it ph s).1.length = n.toNat :=
  genLoop_length c it ph n.toNat 0 _ 0 _

theorem generateTutorialSequences_eq (c : String) (s : ℕ) :
    generateTutorialSequences c s =
      ([(generateSequence c 10 true (some 1) s).1,
        (generateSequence c 10 true (some 2)
          (generateSequence c 10 true (some 1) s).2).1,
        (generateSequence c 15 true (some 3)
          (generateSequence c 10 true (some 2)
            (generateSequence c 10 true (some 1) s).2).2).1,
        (generateSequence c 15 true (some 4)
          (generateSequence c 15 true (some 3)
            (generateSequence c 10 true (some 2)
              (generateSequence c 10 true (some 1) s).2).2).2).1,
        (generateSequence c 20 true (some 5)
          (generateSequence c 15 true (some 4)
            (generateSequence c 15 true (some 3)
              (generateSequence c 10 true (some 2)
                (generateSequence c 10 true (some 1) s).2).2).2).2).1],
       (generateSequence c 20 true (some 5)
          (generateSequence c 15 true (some 4)
            (generateSequence c 15 true (some 3)
              (generateSequence c 10 true (some 2)
                (generateSequence c 10 true (some 1) s).2).2).2).2).2) := by
  have g0 : TUTORIAL_TRIALS.getD 0 0 = 10 := rfl
  have g1 : TUTORIAL_TRIALS.getD 1 0 = 10 := rfl
  have g2 : TUTORIAL_TRIALS.getD 2 0 = 15 := rfl
  have g3 : TUTORIAL_TRIALS.getD 3 0 = 15 := rfl
  have g4 : TUTORIAL_TRIALS.getD 4 0 = 20 := rfl
  unfold generateTutorialSequences
  rw [show List.range 5 = [0, 1, 2, 3, 4] from rfl]
  simp only [List.foldl_cons, List.foldl_nil, g0, g1, g2, g3, g4]
  norm_num

theorem generateTutorialSequences_lengths (c : String) (s : ℕ) :
    (generateTutorialSequences c s).1.map List.length = [10, 10, 15, 15, 20] := by
  rw [generateTutorialSequences_eq]
  simp [generateSequence_length]

theorem generateAllSequences_eq_spec_order (seed : ℕ) (mainTrialCount : ℤ) :
    generateAllSequences seed mainTrialCount =
      generateAllSequencesSpecOrder seed mainTrialCount := by
  simp only [generateAllSequences, generateAllSequencesSpecOrder,
    generateMainSequence, generateTutorialSequences_eq]

/-- C7: `generateAllSequences` equals the explicit chain of eight
`generateSequence` calls on the single shared stream in the spec's fixed
order — HI tutorials phases 1–5 with trial counts 10, 10, 15, 15, 20 and
`isTutorial = true`, then HI main (`isTutorial = false`, phase none), then HD
tutorials phases 1–5, then HD main; both main sequences have length equal to
the configured trial count (so length 5 when it is 5) and the tutorial
sequences have lengths 10, 10, 15, 15, 20. -/
theorem generation_call_order :
    ∀ (seed : ℕ) (mainTrialCount : ℤ),
      generateAllSequences seed mainTrialCount =
          generateAllSequencesSpecOrder seed mainTrialCount ∧
        (generateAllSequences seed mainTrialCount).1.HI.main.length =
          mainTrialCount.toNat ∧
        (generateAllSequences seed mainTrialCount).1.HD.main.length =
          mainTrialCount.toNat ∧
        (generateAllSequences seed 5).1.HI.main.length = 5 ∧
        (generateAllSequences seed mainTrialCount).1.HI.tutorials.map List.length =
          [10, 10, 15, 15, 20] ∧
        (generateAllSequences seed mainTrialCount).1.HD.tutorials.map List.length =
          [10, 10, 15, 15, 20] := by
  intro seed n
  refine ⟨generateAllSequences_eq_spec_order seed n, ?_, ?_, ?_, ?_, ?_⟩
  · exact generateSequence_length "HI" n false none _
  · exact generateSequence_length "HD" n false none _
  · exact generateSequence_length "HI" 5 false none _
  · exact generateTutorialSequences_lengths "HI" seed
  · exact generateTutorialSequences_lengths "HD" _

/-- C9: the targeted exploration override never fires outside its stated
conditions. On a change trial with the gate `isTutorial || (t>0 && t%50==0)`
false, the state transition is exactly the bimodal transition with no extra
draw; with the gate true but the exploration draw not below 0.3, it is again
the bimodal transition (after the one extra draw). Moreover on a no-change
trial no transition happens at all: the emitted state is the incoming state
and `changed = false`. -/
theorem exploration_override_guarded :
    (∀ (isTutorial : Bool) (t : ℕ) (currentState : ℝ) (s : ℕ),
        (¬ (isTutorial = true ∨ (0 < t ∧ t % 50 = 0)) →
          transitionOnChange isTutorial t currentState s =
            sampleBimodalTransition currentState s) ∧
        ((isTutorial = true ∨ (0 < t ∧ t % 50 = 0)) → ¬ lcgOut s < 0.3 →
          transitionOnChange isTutorial t currentState s =
            sampleBimodalTransition currentState (lcgNext s))) ∧
      ∀ (condition : String) (isTutorial : Bool) (tutorialPhase : Option ℕ)
        (r t : ℕ) (st : ℝ) (tau s : ℕ), ¬ lcgOut s < hazardOf condition tau →
        (genLoop condition isTutorial tutorialPhase (r + 1) t st tau s).1.head?.map
            Trial.s_t = some st ∧
          (genLoop condition isTutorial tutorialPhase (r + 1) t st tau s).1.head?.map
            Trial.change_flag = some false := by
  constructor
  · intro it t st s
    constructor
    · intro h
      unfold transitionOnChange
      rw [if_neg h]
    · intro hg hu
      unfold transitionOnChange
      rw [if_pos hg, if_neg hu]
  · intro c it ph r t st tau s h
    rw [genLoop_succ]
    unfold genStep
    rw [if_neg h]
    simp

theorem exploration_override_guarded_witness :
    transitionOnChange false 3 150 7 = sampleBimodalTransition 150 7 ∧
      transitionOnChange true 0 150 1000 =
        sampleBimodalTransition 150 (lcgNext 1000) ∧
      (genLoop "HI" false none 1 0 150 0 1000).1.head?.map Trial.s_t = some 150 ∧
      (genLoop "HI" false none 1 0 150 0 1000).1.head?.map Trial.change_flag =
        some false :=
  ⟨(exploration_override_guarded.1 false 3 150 7).1 (by simp),
   (exploration_override_guarded.1 true 0 150 1000).2 (Or.inl rfl)
     (by norm_num [lcgOut, lcgNext]),
   (exploration_override_guarded.2 "HI" false none 0 0 150 0 1000
     (by norm_num [lcgOut, lcgNext, hazardOf])).1,
   (exploration_override_guarded.2 "HI" false none 0 0 150 0 1000
     (by norm_num [lcgOut, lcgNext, hazardOf])).2⟩

/-- C10: on an empty main sequence the coverage analyzer returns the
degenerate report — `min = Infinity` (`⊤`), `max = -Infinity` (`⊥`) and
`mean = NaN` (modelled as `none`, from the `0 / 0`) — for both the state and
observation ranges, and raises no error; when the main sequence is non-empty
the mean is a finite real. -/
theorem coverage_degenerate_on_empty :
    ∀ sequences : SessionSequences,
      (sequences.HI.main = [] →
        (analyzeStateCoverage sequences).1.stateRange.min = ⊤ ∧
        (analyzeStateCoverage sequences).1.stateRange.max = ⊥ ∧
        (analyzeStateCoverage sequences).1.stateRange.mean = none ∧
        (analyzeStateCoverage sequences).1.observationRange.min = ⊤ ∧
        (analyzeStateCoverage sequences).1.observationRange.max = ⊥ ∧
        (analyzeStateCoverage sequences).1.observationRange.mean = none) ∧
      (sequences.HD.main = [] →
        (analyzeStateCoverage sequences).2.stateRange.min = ⊤ ∧
        (analyzeStateCoverage sequences).2.stateRange.max = ⊥ ∧
        (analyzeStateCoverage sequences).2.stateRange.mean = none) ∧
      (sequences.HI.main ≠ [] →
        ∃ x : ℝ, (analyzeStateCoverage sequences).1.stateRange.mean =
          some (x : EReal)) := by
  intro seqs
  refine ⟨?_, ?_, ?_⟩
  · intro h
    simp [analyzeStateCoverage, conditionCoverage, rangeStatsOf, jsMin, jsMax,
      jsSum, jsDiv, h]
  · intro h
    simp [analyzeStateCoverage, conditionCoverage, rangeStatsOf, jsMin, jsMax,
      jsSum, jsDiv, h]
  · intro h
    have hn : ((seqs.HI.main.map Trial.s_t).length : ℝ) ≠ 0 := by
      simp [h]
    refine ⟨jsSum (seqs.HI.main.map Trial.s_t) /
      ((seqs.HI.main.map Trial.s_t).length : ℝ), ?_⟩
    show jsDiv _ _ = _
    rw [jsDiv, if_neg hn]

/-- Concrete session with empty main sequences. -/
def emptySession : SessionSequences := ⟨⟨[], []⟩, ⟨[], []⟩⟩

/-- Concrete session whose HI main sequence holds one trial. -/
noncomputable def singletonSession : SessionSequences :=
  ⟨⟨[], [⟨0, "HI", 1, false, 1, 2, 0.1, none, false, 20⟩]⟩, ⟨[], []⟩⟩

theorem coverage_degenerate_on_empty_witness :
    ((analyzeStateCoverage emptySession).1.stateRange.min = ⊤ ∧
      (analyzeStateCoverage emptySession).1.stateRange.max = ⊥ ∧
      (analyzeStateCoverage emptySession).1.stateRange.mean = none ∧
      (analyzeStateCoverage emptySession).1.observationRange.min = ⊤ ∧
      (analyzeStateCoverage emptySession).1.observationRange.max = ⊥ ∧
      (analyzeStateCoverage emptySession).1.observationRange.mean = none) ∧
      (∃ x : ℝ, (analyzeStateCoverage singletonSession).1.stateRange.mean =
        some (x : EReal)) :=
  ⟨(coverage_degenerate_on_empty emptySession).1 rfl,
   (coverage_degenerate_on_empty singletonSession).2.2 (by simp [singletonSession])⟩
